import Mathlib

/-!
Verification of the node-pendaq USB data-acquisition library.

The development is a shallow embedding of the library's three cores:

* the sample stream decoder (`PenDaq.prototype._onRawData` in lib/pendaq.js):
  a stateless per-call record extractor over a delivered byte buffer;
* the device session state machine (`open`/`start`/`stop`/`close`/
  `_onDisconnect` on the `PenDaq` prototype): the lifecycle flags
  `_isOpen`, `_isRunning`, `_isConnected` together with the events each
  operation emits and the control transfers it issues; asynchronous
  transport outcomes (whether `device.open`, `controlTransfer` or
  `interface.release` succeed) are passed in as boolean parameters;
* the device registry (`checkNewDevice` / `checkRemoveDevice` in
  src/index.js): the module-level `devices` array and the `connected` /
  `disconnected` events it emits.

Buffers are `List Nat` of byte values; machine reads follow Node's
`Buffer.readUInt16LE` / `readUInt8`.
-/

/-- Error kinds distinguished by the library's `Error` messages:
"The device must be opened before" (`notOpen`), "Device not connected"
(`notConnected`), "Checksum code does not match the calculated code"
(`checksumMismatch`), and any error object handed over by the USB
transport (`transportFailure`). -/
inductive ErrKind where
  | notOpen
  | notConnected
  | checksumMismatch
  | transportFailure
  deriving DecidableEq

/-- Events a `PenDaq` session emits: `open`, `close`, `start`, `stop`,
`disconnected`, `data` (one decoded sample, an array of the four channel
values) and `error` (with the kind of the error object). The `rawdata`
event is emitted by the endpoint data listener before `_onRawData` runs and
carries the untouched buffer; it is not needed by any claim and not
modelled. -/
inductive Ev where
  | openEv
  | closeEv
  | startEv
  | stopEv
  | disconnectedEv
  | dataEv (sample : List Nat)
  | errorEv (k : ErrKind)
  deriving DecidableEq

/-- `buf.readUInt16LE(i)`: little-endian 16-bit read, low byte at `i`. -/
def readUInt16LE (data : List Nat) (i : Nat) : Nat :=
  data.getD i 0 + 256 * data.getD (i + 1) 0

/-- `buf.readUInt8(i)`. -/
def readUInt8 (data : List Nat) (i : Nat) : Nat :=
  data.getD i 0

/-- One iteration body of the `_onRawData` parse loop: read `an1..an4` as
four little-endian 16-bit values at offsets `i, i+2, i+4, i+6`, the
checksum byte at `i+8`, and compare `(an1+an2+an3+an4) & 0xFF` with the
checksum: emit `data` with `[an1, an2, an3, an4]` on a match and the
checksum `error` otherwise. -/
def windowEv (data : List Nat) (i : Nat) : Ev :=
  let an1 := readUInt16LE data i
  let an2 := readUInt16LE data (i + 2)
  let an3 := readUInt16LE data (i + 4)
  let an4 := readUInt16LE data (i + 6)
  let chksum := readUInt8 data (i + 8)
  if (an1 + an2 + an3 + an4) &&& 0xFF == chksum then
    Ev.dataEv [an1, an2, an3, an4]
  else
    Ev.errorEv ErrKind.checksumMismatch

/-- The `for (i = 0; i < data.length;)` loop of `_onRawData`: stop as soon
as `i + 9 > data.length` (which also covers the loop guard `i < length`),
otherwise decode the 9-byte window at `i` and continue at `i + 9`. -/
def onRawDataLoop (data : List Nat) (i : Nat) : List Ev :=
  if h : i + 9 > data.length then []
  else windowEv data i :: onRawDataLoop data (i + 9)
termination_by data.length - i
decreasing_by omega

/-- `PenDaq.prototype._onRawData`, as the pure list of `data`/`error`
events produced for one delivered buffer. The `instanceof Buffer` type
check is a caller-contract violation (a thrown `TypeError`), outside the
byte-level decoding modelled here. The decoder keeps no state across
calls: this is a plain function of the buffer alone. -/
def PenDaq.onRawData (data : List Nat) : List Ev :=
  onRawDataLoop data 0

/-- The lifecycle flags of one `PenDaq` session: `_isOpen`, `_isRunning`,
`_isConnected` (leading underscores dropped). The transport handles
(`_device`, interfaces, endpoints) carry no lifecycle information and are
not part of the state. -/
structure Session where
  isOpen : Bool
  isRunning : Bool
  isConnected : Bool
  deriving DecidableEq

/-- The `PenDaq` constructor's flag initialisation: `_isOpen = false`,
`_isRunning = false`, `_isConnected = true`. This is the only place the
connected flag is ever set to `true`. -/
def PenDaq.new : Session :=
  { isOpen := false, isRunning := false, isConnected := true }

/-- Result of one session operation: the session flags afterwards, the
events emitted on the session (in order), and the `value` arguments of the
`controlTransfer(0x21, 0x22, value, 0, ...)` calls issued (3 asserts the
carrier, 0 deasserts it). -/
structure Outcome where
  session : Session
  events : List Ev
  transfers : List Nat
  deriving DecidableEq

/-- `PenDaq.prototype.open`. Guard: `if (this._isOpen || !this._isConnected)
return;` — a silent no-op, no event and no error. Otherwise the transport
acquisition (device open, interface claims, polling start) either succeeds
— `_isOpen` becomes true and `open` is emitted — or throws, in which case
`callbackError` emits one `error` and the flags are unchanged.
`transportOk` stands for that transport outcome. (Named `open'` because
`open` is a Lean keyword.) -/
def PenDaq.open' (s : Session) (transportOk : Bool) : Session × List Ev :=
  if s.isOpen || !s.isConnected then (s, [])
  else if transportOk then ({ s with isOpen := true }, [Ev.openEv])
  else (s, [Ev.errorEv ErrKind.transportFailure])

/-- `PenDaq.prototype.start`. Guards (in source order): not open →
`callbackError` with "The device must be opened before"; not connected →
"Device not connected"; both leave the flags unchanged and issue no
control transfer. Otherwise `controlTransfer(0x21, 0x22, 3, 0, ...)` is
issued; on success `_isRunning` becomes true and `start` is emitted, on
failure one `error` is emitted and the flags are unchanged. -/
def PenDaq.start (s : Session) (transferOk : Bool) : Outcome :=
  if !s.isOpen then ⟨s, [Ev.errorEv ErrKind.notOpen], []⟩
  else if !s.isConnected then ⟨s, [Ev.errorEv ErrKind.notConnected], []⟩
  else if transferOk then ⟨{ s with isRunning := true }, [Ev.startEv], [3]⟩
  else ⟨s, [Ev.errorEv ErrKind.transportFailure], [3]⟩

/-- `PenDaq.prototype.stop`. Same guards as `start`; on the transfer
`controlTransfer(0x21, 0x22, 0, 0, ...)` success `_isRunning` becomes
false and `stop` is emitted. -/
def PenDaq.stop (s : Session) (transferOk : Bool) : Outcome :=
  if !s.isOpen then ⟨s, [Ev.errorEv ErrKind.notOpen], []⟩
  else if !s.isConnected then ⟨s, [Ev.errorEv ErrKind.notConnected], []⟩
  else if transferOk then ⟨{ s with isRunning := false }, [Ev.stopEv], [0]⟩
  else ⟨s, [Ev.errorEv ErrKind.transportFailure], [0]⟩

/-- `PenDaq.prototype.close`, with a fuel argument standing for the
re-entrant `self.close(cb)` call made from the internal `stop` callback.
Branches in source order: `if (!this._isOpen || !this._isConnected)` —
emit `close` and return with the flags untouched; `if (this._isRunning)`
— run `stop`, and on its success call `close` again (the re-entrant call
finds `_isRunning` false, so fuel 2 reaches every branch; fuel 0 is
unreachable), on its failure the wrapper's `callbackError` emits one more
`error`; otherwise release the data and control interfaces
(`relDataOk`/`relCtlOk` are their outcomes; a failed release emits `error`
and aborts), close the device, clear `_isOpen` and emit `close`. -/
def PenDaq.closeGo : Nat → Session → Bool → Bool → Bool → Outcome
  | 0, s, _, _, _ => ⟨s, [], []⟩
  | fuel + 1, s, transferOk, relDataOk, relCtlOk =>
    if !s.isOpen || !s.isConnected then ⟨s, [Ev.closeEv], []⟩
    else if s.isRunning then
      let o1 := PenDaq.stop s transferOk
      if transferOk then
        let o2 := PenDaq.closeGo fuel o1.session transferOk relDataOk relCtlOk
        ⟨o2.session, o1.events ++ o2.events, o1.transfers ++ o2.transfers⟩
      else ⟨o1.session, o1.events ++ [Ev.errorEv ErrKind.transportFailure],
            o1.transfers⟩
    else if !relDataOk then ⟨s, [Ev.errorEv ErrKind.transportFailure], []⟩
    else if !relCtlOk then ⟨s, [Ev.errorEv ErrKind.transportFailure], []⟩
    else ⟨{ s with isOpen := false }, [Ev.closeEv], []⟩

/-- `PenDaq.prototype.close` (fuel 2 covers the one re-entrant call). -/
def PenDaq.close (s : Session) (transferOk relDataOk relCtlOk : Bool) :
    Outcome :=
  PenDaq.closeGo 2 s transferOk relDataOk relCtlOk

/-- `PenDaq.prototype._onDisconnect`: set `_isConnected = false` and emit
`disconnected`. -/
def PenDaq.onDisconnect (s : Session) : Session × List Ev :=
  ({ s with isConnected := false }, [Ev.disconnectedEv])

/-- `EventEmitter.emit` as seen by the session: listeners are invoked but
the lifecycle flags are never assigned by `emit` itself. -/
def Session.emit (s : Session) (e : Ev) : Session × List Ev :=
  (s, [e])

/-- `PenDaq.prototype._onRawData` with the session state threaded through
the loop exactly as `this` is: the loop body only reads the buffer and
calls `this.emit`, so each iteration passes the state to the next. -/
def PenDaq.onRawDataLoopS (s : Session) (data : List Nat) (i : Nat) :
    Session × List Ev :=
  if _h : i + 9 > data.length then (s, [])
  else
    let (s1, e1) := Session.emit s (windowEv data i)
    let (s2, rest) := PenDaq.onRawDataLoopS s1 data (i + 9)
    (s2, e1 ++ rest)
termination_by data.length - i
decreasing_by omega

/-- `PenDaq.prototype._onRawData` acting on a session: the state after the
call together with the events emitted. -/
def PenDaq.onRawDataS (s : Session) (data : List Nat) : Session × List Ev :=
  PenDaq.onRawDataLoopS s data 0

/-- A usb device descriptor: the fields the registry reads. -/
structure DeviceDescriptor where
  idVendor : Nat
  idProduct : Nat
  deriving DecidableEq

/-- A usb device as the registry sees it: `deviceDescriptor` (possibly
absent — the `!dev.deviceDescriptor` guards), `busNumber` and
`deviceAddress`. -/
structure UsbDevice where
  deviceDescriptor : Option DeviceDescriptor
  busNumber : Nat
  deviceAddress : Nat
  deriving DecidableEq

/-- A tracked `PenDaq` instance in the registry's `devices` array: its
`_device` and its session flags. -/
structure PenDaqHandle where
  device : UsbDevice
  state : Session
  deriving DecidableEq

/-- `new PenDaq(dev)`: a fresh session bound to the device. -/
def PenDaqHandle.new (dev : UsbDevice) : PenDaqHandle :=
  ⟨dev, PenDaq.new⟩

/-- `matchVidPid(desc1, desc2)` from src/index.js. The `!desc1 || !desc2`
null guard of the source returns false for a missing descriptor; both call
sites below pass descriptors already checked present (the allow-list
entries are JSON literals, the device descriptor is matched on its
`Option` before use). -/
def matchVidPid (desc1 desc2 : DeviceDescriptor) : Bool :=
  desc1.idVendor == desc2.idVendor && desc1.idProduct == desc2.idProduct

/-- `matchDeviceAddresses(dev1, dev2)` from src/index.js:
`dev1.busNumber && dev1.deviceAddress && dev1.busNumber === dev2.busNumber
&& dev1.deviceAddress === dev2.deviceAddress`. JavaScript truthiness makes
a zero `busNumber` or `deviceAddress` falsy, so the comparison is skipped
for it. The `!dev1 || !dev2` null guard is handled by the call sites
(registry entries always hold a device; the event argument is checked
before the loop). -/
def matchDeviceAddresses (dev1 dev2 : UsbDevice) : Bool :=
  dev1.busNumber != 0 && dev1.deviceAddress != 0 &&
    dev1.busNumber == dev2.busNumber && dev1.deviceAddress == dev2.deviceAddress

/-- Events the registry module emits on its `EventEmitter`:
`connected` with the freshly constructed session handle, and
`disconnected` with whatever `devices[i]` evaluates to at emit time —
possibly `undefined` (`none`). -/
inductive RegEv where
  | connected (handle : PenDaqHandle)
  | disconnected (handle : Option PenDaqHandle)
  deriving DecidableEq

/-- The first loop of `checkNewDevice`: does the device descriptor match
any entry of the `ids.usbIDs` allow-list (`ids.json`, whose concrete
contents are data, passed here as the `usbIDs` parameter). -/
def matchesAllowList (usbIDs : List DeviceDescriptor)
    (desc : DeviceDescriptor) : Bool :=
  usbIDs.any fun idp => matchVidPid idp desc

/-- `checkNewDevice(dev)` from src/index.js acting on the module-level
`devices` array: reject a null device or missing descriptor, reject a
descriptor outside the allow-list, reject (silently) a device some tracked
entry already matches by `matchDeviceAddresses`; otherwise push a new
`PenDaq` and emit `connected` with it. -/
def checkNewDevice (usbIDs : List DeviceDescriptor)
    (devices : List PenDaqHandle) (dev : Option UsbDevice) :
    List PenDaqHandle × List RegEv :=
  match dev with
  | none => (devices, [])
  | some d =>
    match d.deviceDescriptor with
    | none => (devices, [])
    | some desc =>
      if !matchesAllowList usbIDs desc then (devices, [])
      else if devices.any (fun p => matchDeviceAddresses p.device d) then
        (devices, [])
      else
        let pendaq := PenDaqHandle.new d
        (devices ++ [pendaq], [RegEv.connected pendaq])

/-- `checkRemoveDevice(dev)` from src/index.js: find the first tracked
entry whose `_device` matches the detached device by
`matchDeviceAddresses`; call its `_onDisconnect()` (which marks that very
handle disconnected; the handle is removed next, so the remaining list is
simply the list without index `i`), `devices.splice(i, 1)`, then
`ee.emit('disconnected', devices[i])` — the indexing happens AFTER the
splice, so the payload is the element now at position `i` (`none` when `i`
was the last position), not the removed handle. -/
def checkRemoveDevice (devices : List PenDaqHandle) (dev : Option UsbDevice) :
    List PenDaqHandle × List RegEv :=
  match dev with
  | none => (devices, [])
  | some d =>
    match d.deviceDescriptor with
    | none => (devices, [])
    | some _ =>
      match devices.findIdx? (fun p => matchDeviceAddresses p.device d) with
      | none => (devices, [])
      | some i =>
        let after := devices.eraseIdx i
        (after, [RegEv.disconnected after[i]?])

/-- The spec's example record: an1=1, an2=2, an3=3, an4=4, checksum 10. -/
def c1Buf : List Nat := [1, 0, 2, 0, 3, 0, 4, 0, 10]

/-- The example record followed by one stray trailing byte. -/
def c2Buf : List Nat := [1, 0, 2, 0, 3, 0, 4, 0, 10, 99]

/-- A record with a wrong checksum byte (0xFF) followed by a valid one. -/
def c3Buf : List Nat :=
  [1, 0, 2, 0, 3, 0, 4, 0, 0xFF, 1, 0, 2, 0, 3, 0, 4, 0, 10]

/-- A session that is closed and disconnected. -/
def c4Session : Session := ⟨false, false, false⟩

/-- A concrete allow-list with one (vendor, product) pair. -/
def oneIds : List DeviceDescriptor := [⟨0x2694, 5⟩]

/-- A matching device on bus 1, address 1. -/
def c6Dev : UsbDevice := ⟨some ⟨0x2694, 5⟩, 1, 1⟩

/-- The tracked session handle for `c6Dev`. -/
def c6Handle : PenDaqHandle := PenDaqHandle.new c6Dev

/-- A matching device whose bus number is 0 — falsy under the JS
truthiness test in `matchDeviceAddresses`. -/
def c7Dev : UsbDevice := ⟨some ⟨0x2694, 5⟩, 0, 1⟩

/-- A matching device on bus 1, address 1 (nonzero identity). -/
def c7wDev : UsbDevice := ⟨some ⟨0x2694, 5⟩, 1, 1⟩

theorem onRawDataLoop_stop (data : List Nat) (i : Nat)
    (h : data.length < i + 9) : onRawDataLoop data i = [] := by
  rw [onRawDataLoop]
  simp [h]

theorem onRawDataLoop_step (data : List Nat) (i : Nat)
    (h : i + 9 ≤ data.length) :
    onRawDataLoop data i = windowEv data i :: onRawDataLoop data (i + 9) := by
  rw [onRawDataLoop]
  simp [Nat.not_lt.mpr h]

theorem onRawDataLoop_getElem? (data : List Nat) (k i : Nat)
    (h : i + 9 * k + 9 ≤ data.length) :
    (onRawDataLoop data i)[k]? = some (windowEv data (i + 9 * k)) := by
  induction k generalizing i with
  | zero =>
      rw [onRawDataLoop_step data i (by omega)]
      simp
  | succ k ih =>
      rw [onRawDataLoop_step data i (by omega)]
      have h9 : i + 9 + 9 * k = i + 9 * (k + 1) := by ring
      simpa [h9] using ih (i + 9) (by omega)

theorem onRawDataLoop_length (data : List Nat) (i : Nat) :
    (onRawDataLoop data i).length = (data.length - i) / 9 := by
  rw [onRawDataLoop]
  split
  · simp
    omega
  · rw [List.length_cons, onRawDataLoop_length data (i + 9)]
    omega
termination_by data.length - i
decreasing_by omega

theorem onRawDataLoop_shape (data : List Nat) (i : Nat) :
    ∀ e ∈ onRawDataLoop data i,
      (∃ s, e = Ev.dataEv s) ∨ e = Ev.errorEv ErrKind.checksumMismatch := by
  rw [onRawDataLoop]
  split
  · simp
  · intro e he
    rcases List.mem_cons.mp he with h | h
    · subst h
      simp only [windowEv]
      split
      · exact Or.inl ⟨_, rfl⟩
      · exact Or.inr rfl
    · exact onRawDataLoop_shape data (i + 9) e h
termination_by data.length - i
decreasing_by omega

/-- `x & 0xFF` on a non-negative integer is `x % 256`. -/
theorem and_255_eq_mod (x : Nat) : x &&& 255 = x % 256 := by
  simpa using Nat.and_pow_two_sub_one_eq_mod x 8

theorem onRawDataLoopS_fst (s : Session) (data : List Nat) (i : Nat) :
    (PenDaq.onRawDataLoopS s data i).1 = s := by
  rw [PenDaq.onRawDataLoopS]
  split
  · rfl
  · simp only [Session.emit]
    exact onRawDataLoopS_fst s data (i + 9)
termination_by data.length - i
decreasing_by omega

theorem onRawDataLoopS_snd (s : Session) (data : List Nat) (i : Nat) :
    (PenDaq.onRawDataLoopS s data i).2 = onRawDataLoop data i := by
  rw [PenDaq.onRawDataLoopS, onRawDataLoop]
  split
  · rfl
  · simp only [Session.emit]
    rw [onRawDataLoopS_snd s data (i + 9)]
    simp
termination_by data.length - i
decreasing_by omega

/-- C1: every 9-byte window at offset `9 * k` of a delivered buffer whose
checksum byte equals the low 8 bits of `an1 + an2 + an3 + an4` makes
`_onRawData` yield exactly one Sample for that window — the `k`-th result
— carrying the four 16-bit values read little-endian at offsets
`9k, 9k+2, 9k+4, 9k+6`. -/
theorem decode_valid_record (data : List Nat) (k : Nat)
    (hlen : 9 * k + 9 ≤ data.length)
    (hchk : readUInt8 data (9 * k + 8) =
      (readUInt16LE data (9 * k) + readUInt16LE data (9 * k + 2) +
       readUInt16LE data (9 * k + 4) + readUInt16LE data (9 * k + 6)) % 256) :
    (PenDaq.onRawData data)[k]? =
      some (Ev.dataEv [readUInt16LE data (9 * k), readUInt16LE data (9 * k + 2),
        readUInt16LE data (9 * k + 4), readUInt16LE data (9 * k + 6)]) := by
  have h := onRawDataLoop_getElem? data k 0 (by omega)
  rw [PenDaq.onRawData, h]
  simp only [Nat.zero_add, windowEv]
  rw [and_255_eq_mod, ← hchk]
  simp [readUInt8]

/-- Witness for C1 at the spec's example buffer
`[1, 0, 2, 0, 3, 0, 4, 0, 10]`: the decode yields the Sample
`[1, 2, 3, 4]`. -/
theorem decode_valid_record_witness :
    9 * 0 + 9 ≤ c1Buf.length ∧
    (PenDaq.onRawData c1Buf)[0]? = some (Ev.dataEv [1, 2, 3, 4]) :=
  ⟨by decide, decode_valid_record c1Buf 0 (by decide) (by decide)⟩

/-- C2: `_onRawData` produces exactly `⌊length / 9⌋` results — each one a
Sample or a checksum-mismatch error — a trailing partial record produces
nothing, and the empty buffer produces nothing. The decoder carries no
state between calls: `PenDaq.onRawData` is a plain function of the one
delivered buffer. -/
theorem decode_result_count (data : List Nat) :
    (PenDaq.onRawData data).length = data.length / 9 ∧
    PenDaq.onRawData [] = [] ∧
    ∀ e ∈ PenDaq.onRawData data,
      (∃ s, e = Ev.dataEv s) ∨ e = Ev.errorEv ErrKind.checksumMismatch := by
  refine ⟨?_, ?_, onRawDataLoop_shape data 0⟩
  · rw [PenDaq.onRawData, onRawDataLoop_length, Nat.sub_zero]
  · exact onRawDataLoop_stop [] 0 (by simp)

/-- Witness for C2 on a 10-byte buffer: one whole record decodes, the
stray trailing byte produces nothing. -/
theorem decode_result_count_witness :
    (PenDaq.onRawData c2Buf).length = c2Buf.length / 9 ∧
    ((∃ s, Ev.dataEv [1, 2, 3, 4] = Ev.dataEv s) ∨
      Ev.dataEv [1, 2, 3, 4] = Ev.errorEv ErrKind.checksumMismatch) := by
  have heval : PenDaq.onRawData c2Buf = [Ev.dataEv [1, 2, 3, 4]] := by
    rw [PenDaq.onRawData, onRawDataLoop_step c2Buf 0 (by decide),
      onRawDataLoop_stop c2Buf 9 (by decide)]
    decide
  exact ⟨(decode_result_count c2Buf).1,
    (decode_result_count c2Buf).2.2 _ (by rw [heval]; exact List.mem_singleton.mpr rfl)⟩

/-- C3: a 9-byte window whose checksum byte differs from
`(an1+an2+an3+an4) mod 256` yields the checksum-mismatch error and no
Sample as its result, and the scan continues: every complete window of the
same buffer still yields its own decode result. -/
theorem decode_checksum_mismatch (data : List Nat) (k : Nat)
    (hlen : 9 * k + 9 ≤ data.length)
    (hchk : readUInt8 data (9 * k + 8) ≠
      (readUInt16LE data (9 * k) + readUInt16LE data (9 * k + 2) +
       readUInt16LE data (9 * k + 4) + readUInt16LE data (9 * k + 6)) % 256) :
    (PenDaq.onRawData data)[k]? = some (Ev.errorEv ErrKind.checksumMismatch) ∧
    ∀ k', 9 * k' + 9 ≤ data.length →
      (PenDaq.onRawData data)[k']? = some (windowEv data (9 * k')) := by
  constructor
  · have h := onRawDataLoop_getElem? data k 0 (by omega)
    rw [PenDaq.onRawData, h]
    simp only [Nat.zero_add, windowEv]
    rw [and_255_eq_mod]
    have : ((readUInt16LE data (9 * k) + readUInt16LE data (9 * k + 2) +
        readUInt16LE data (9 * k + 4) + readUInt16LE data (9 * k + 6)) % 256 ==
        readUInt8 data (9 * k + 8)) = false := by
      exact beq_eq_false_iff_ne.mpr fun hne => hchk hne.symm
    simp [readUInt8] at this ⊢
    simp [this]
  · intro k' h'
    have h := onRawDataLoop_getElem? data k' 0 (by omega)
    rw [PenDaq.onRawData, h]
    simp

/-- Witness for C3: on `c3Buf` the first window (checksum byte 0xFF,
expected 10) yields the checksum error, and the second, valid window still
decodes to the Sample `[1, 2, 3, 4]`. -/
theorem decode_checksum_mismatch_witness :
    (PenDaq.onRawData c3Buf)[0]? = some (Ev.errorEv ErrKind.checksumMismatch) ∧
    (PenDaq.onRawData c3Buf)[1]? = some (Ev.dataEv [1, 2, 3, 4]) := by
  have h := decode_checksum_mismatch c3Buf 0 (by decide) (by decide)
  refine ⟨h.1, ?_⟩
  rw [h.2 1 (by decide)]
  decide

/-- C4 counterexample: on a disconnected session, `open()` does not fail
with NotConnected — the `if (this._isOpen || !this._isConnected) return;`
guard returns silently, with no event at all. -/
theorem open_disconnected_silent :
    PenDaq.open' c4Session true = (c4Session, []) ∧
    Ev.errorEv ErrKind.notConnected ∉ (PenDaq.open' c4Session true).2 := by
  decide

/-- C4 (amended): once the Disconnected flag is set, `start()` and
`stop()` invoked on the (still open) session fail immediately with
NotConnected, change no session state and issue no control transfer;
`open()` while disconnected is a silent no-op — no event, no error, no
state change — rather than a NotConnected failure; and `close()` still
succeeds, emitting `close` without touching the transport. -/
theorem disconnected_guards (s : Session) (t r1 r2 : Bool)
    (h : s.isConnected = false) :
    PenDaq.open' s t = (s, []) ∧
    (s.isOpen = true →
      PenDaq.start s t = ⟨s, [Ev.errorEv ErrKind.notConnected], []⟩) ∧
    (s.isOpen = true →
      PenDaq.stop s t = ⟨s, [Ev.errorEv ErrKind.notConnected], []⟩) ∧
    PenDaq.close s t r1 r2 = ⟨s, [Ev.closeEv], []⟩ := by
  refine ⟨?_, ?_, ?_, ?_⟩
  · simp [PenDaq.open', h]
  · intro ho
    simp [PenDaq.start, ho, h]
  · intro ho
    simp [PenDaq.stop, ho, h]
  · simp [PenDaq.close, PenDaq.closeGo, h]

/-- Witness for C4 (amended) on the open, running, disconnected session:
`start()` fails with NotConnected, without a transfer. -/
theorem disconnected_guards_witness :
    (⟨true, true, false⟩ : Session).isConnected = false ∧
    PenDaq.start ⟨true, true, false⟩ true =
      ⟨⟨true, true, false⟩, [Ev.errorEv ErrKind.notConnected], []⟩ :=
  ⟨rfl, (disconnected_guards ⟨true, true, false⟩ true true true rfl).2.1 rfl⟩

/-- C5: `close()` on an open, running, connected session with a
successful transport first stops — emitting `stop` strictly before
`close` — and leaves the session Closed: `_isOpen` and `_isRunning` both
false. -/
theorem close_running_stops_first (s : Session)
    (ho : s.isOpen = true) (hr : s.isRunning = true)
    (hc : s.isConnected = true) :
    (PenDaq.close s true true true).events = [Ev.stopEv, Ev.closeEv] ∧
    (PenDaq.close s true true true).session.isOpen = false ∧
    (PenDaq.close s true true true).session.isRunning = false := by
  simp [PenDaq.close, PenDaq.closeGo, PenDaq.stop, ho, hr, hc]

/-- Witness for C5 on the concrete running session. -/
theorem close_running_stops_first_witness :
    (⟨true, true, true⟩ : Session).isRunning = true ∧
    (PenDaq.close ⟨true, true, true⟩ true true true).events =
      [Ev.stopEv, Ev.closeEv] :=
  ⟨rfl, (close_running_stops_first ⟨true, true, true⟩ rfl rfl rfl).1⟩

/-- C8: `open()` on an already open session is a no-op — no event, no
error, no state change — so two consecutive `open()` calls from a closed
connected session (the first succeeding) produce exactly one `open`
event. -/
theorem open_idempotent (s : Session) (t t2 : Bool) :
    (s.isOpen = true → PenDaq.open' s t = (s, [])) ∧
    (s.isOpen = false → s.isConnected = true →
      (PenDaq.open' s true).2 = [Ev.openEv] ∧
      PenDaq.open' (PenDaq.open' s true).1 t2 = ((PenDaq.open' s true).1, []) ∧
      ((PenDaq.open' s true).2 ++
        (PenDaq.open' (PenDaq.open' s true).1 t2).2).count Ev.openEv = 1) := by
  constructor
  · intro ho
    simp [PenDaq.open', ho]
  · intro ho hc
    simp [PenDaq.open', ho, hc, List.count_cons]

/-- Witness for C8: opening the fresh session twice yields one `open`
event in total. -/
theorem open_idempotent_witness :
    PenDaq.new.isOpen = false ∧ PenDaq.new.isConnected = true ∧
    ((PenDaq.open' PenDaq.new true).2 ++
      (PenDaq.open' (PenDaq.open' PenDaq.new true).1 true).2).count
      Ev.openEv = 1 :=
  ⟨rfl, rfl, ((open_idempotent PenDaq.new true true).2 rfl rfl).2.2⟩

/-- C9: decoding a buffer never changes the session's lifecycle state:
after `_onRawData` — including runs that emit checksum-mismatch errors —
`isOpen`, `isRunning` and `isConnected` hold exactly their prior values,
and the events are exactly the decode results of the buffer. -/
theorem onRawData_preserves_flags (s : Session) (data : List Nat) :
    (PenDaq.onRawDataS s data).1.isOpen = s.isOpen ∧
    (PenDaq.onRawDataS s data).1.isRunning = s.isRunning ∧
    (PenDaq.onRawDataS s data).1.isConnected = s.isConnected ∧
    (PenDaq.onRawDataS s data).2 = PenDaq.onRawData data := by
  have h1 := onRawDataLoopS_fst s data 0
  have h2 := onRawDataLoopS_snd s data 0
  rw [PenDaq.onRawDataS, PenDaq.onRawData]
  rw [h1, h2]
  exact ⟨rfl, rfl, rfl, rfl⟩

/-- C10: the connected flag is `true` only from construction; once
`_onDisconnect` has cleared it, no operation — `open`, `start`, `stop`,
`close`, `_onRawData` — ever sets it back, and every subsequent `start()`
or `stop()` fails: flags unchanged, a single `error` emitted, no control
transfer issued. -/
theorem disconnect_permanent (s : Session) (t r1 r2 : Bool) (d : List Nat)
    (h : s.isConnected = false) :
    PenDaq.new.isConnected = true ∧
    (PenDaq.onDisconnect s).1.isConnected = false ∧
    (PenDaq.open' s t).1.isConnected = false ∧
    (PenDaq.start s t).session.isConnected = false ∧
    (PenDaq.stop s t).session.isConnected = false ∧
    (PenDaq.close s t r1 r2).session.isConnected = false ∧
    (PenDaq.onRawDataS s d).1.isConnected = false ∧
    (∃ k, PenDaq.start s t = ⟨s, [Ev.errorEv k], []⟩) ∧
    (∃ k, PenDaq.stop s t = ⟨s, [Ev.errorEv k], []⟩) := by
  have hraw := onRawDataLoopS_fst s d 0
  refine ⟨rfl, by simp [PenDaq.onDisconnect], ?_, ?_, ?_, ?_, ?_, ?_, ?_⟩
  · simp [PenDaq.open', h]
  · cases ho : s.isOpen <;> simp [PenDaq.start, ho, h]
  · cases ho : s.isOpen <;> simp [PenDaq.stop, ho, h]
  · simp [PenDaq.close, PenDaq.closeGo, h]
  · rw [PenDaq.onRawDataS, hraw]
    exact h
  · cases ho : s.isOpen
    · exact ⟨ErrKind.notOpen, by simp [PenDaq.start, ho]⟩
    · exact ⟨ErrKind.notConnected, by simp [PenDaq.start, ho, h]⟩
  · cases ho : s.isOpen
    · exact ⟨ErrKind.notOpen, by simp [PenDaq.stop, ho]⟩
    · exact ⟨ErrKind.notConnected, by simp [PenDaq.stop, ho, h]⟩

/-- Witness for C10 on the open, disconnected session. -/
theorem disconnect_permanent_witness :
    (⟨true, false, false⟩ : Session).isConnected = false ∧
    (∃ k, PenDaq.start ⟨true, false, false⟩ true =
      ⟨⟨true, false, false⟩, [Ev.errorEv k], []⟩) :=
  ⟨rfl, (disconnect_permanent ⟨true, false, false⟩ true true true [] rfl).2.2.2.2.2.2.2.1⟩

/-- C6 (code bug): on a detach notification matching the single tracked
session, `checkRemoveDevice` removes the entry but the `disconnected`
event carries `devices[i]` evaluated AFTER `devices.splice(i, 1)` — here
`undefined` (`none`), not the removed session handle. -/
theorem checkRemoveDevice_emits_wrong_handle :
    checkRemoveDevice [c6Handle] (some c6Dev) =
      ([], [RegEv.disconnected none]) ∧
    RegEv.disconnected (some c6Handle) ∉
      (checkRemoveDevice [c6Handle] (some c6Dev)).2 := by
  decide

/-- C7 counterexample: a device with bus number 0 — falsy under the JS
truthiness guard in `matchDeviceAddresses` — delivered twice through
`checkNewDevice` is tracked twice, with two `connected` events, although
both notifications carry the same bus-number/device-address and match the
allow-list. -/
theorem checkNewDevice_zero_bus_duplicate :
    (checkNewDevice oneIds
      (checkNewDevice oneIds [] (some c7Dev)).1 (some c7Dev)).1.length = 2 ∧
    (checkNewDevice oneIds [] (some c7Dev)).2.length = 1 ∧
    (checkNewDevice oneIds
      (checkNewDevice oneIds [] (some c7Dev)).1 (some c7Dev)).2.length = 1 := by
  decide

/-- C7 (amended): for devices with nonzero bus-number and device-address
(the values the JS truthiness guard accepts), delivering two attach
notifications with the same bus-number and device-address, both matching
the allow-list, yields exactly one tracked session and exactly one
`connected` event: the first notification adds the session, the second is
ignored. -/
theorem checkNewDevice_dedup (usbIDs : List DeviceDescriptor)
    (d1 d2 : UsbDevice) (desc1 desc2 : DeviceDescriptor)
    (hd1 : d1.deviceDescriptor = some desc1)
    (hd2 : d2.deviceDescriptor = some desc2)
    (hm1 : matchesAllowList usbIDs desc1 = true)
    (hm2 : matchesAllowList usbIDs desc2 = true)
    (hbus : d1.busNumber = d2.busNumber)
    (haddr : d1.deviceAddress = d2.deviceAddress)
    (hb : d1.busNumber ≠ 0) (ha : d1.deviceAddress ≠ 0) :
    checkNewDevice usbIDs [] (some d1) =
      ([PenDaqHandle.new d1], [RegEv.connected (PenDaqHandle.new d1)]) ∧
    checkNewDevice usbIDs [PenDaqHandle.new d1] (some d2) =
      ([PenDaqHandle.new d1], []) := by
  constructor
  · simp [checkNewDevice, hd1, hm1]
  · have hmatch : matchDeviceAddresses (PenDaqHandle.new d1).device d2 = true := by
      have hb2 : d2.busNumber ≠ 0 := hbus ▸ hb
      have ha2 : d2.deviceAddress ≠ 0 := haddr ▸ ha
      simp [matchDeviceAddresses, PenDaqHandle.new, hbus, haddr, hb2, ha2]
    simp [checkNewDevice, hd2, hm2, hmatch]

/-- Witness for C7 (amended) at the concrete device on bus 1, address 1:
the second identical attach notification changes nothing and emits
nothing. -/
theorem checkNewDevice_dedup_witness :
    c7wDev.busNumber ≠ 0 ∧
    checkNewDevice oneIds [] (some c7wDev) =
      ([PenDaqHandle.new c7wDev], [RegEv.connected (PenDaqHandle.new c7wDev)]) ∧
    checkNewDevice oneIds [PenDaqHandle.new c7wDev] (some c7wDev) =
      ([PenDaqHandle.new c7wDev], []) := by
  have h := checkNewDevice_dedup oneIds c7wDev c7wDev ⟨0x2694, 5⟩ ⟨0x2694, 5⟩
    rfl rfl (by decide) (by decide) rfl rfl (by decide) (by decide)
  exact ⟨by decide, h.1, h.2⟩
